import Mathlib

/-!
Shallow embedding of the SecureMed authentication engine
(`backend/authentication/views.py`, `models.py`, `middleware.py`,
`serializers.py`) and proofs about its login lockout, MFA, recovery-code,
invitation and role-gate behaviour.

Times are Unix seconds as `Nat`.  Django's salted `make_password` /
`check_password` pair is an external collaborator; it is modelled as an
injective tagging so that `check_password p (make_password p)` holds and
checks against the hash of a different string fail, which is the contract
the views rely on.
-/

/-- Model of Django `make_password` (external collaborator, see header). -/
def make_password (plain : String) : String := "pbkdf2_sha256$" ++ plain

/-- Model of Django `check_password`: verifies a plaintext against a stored
hash produced by `make_password`. -/
def check_password (plain hashed : String) : Bool := make_password plain == hashed

/-- Constant `MAX_FAILED_ATTEMPTS = 5` from `views.py`. -/
def MAX_FAILED_ATTEMPTS : Nat := 5

/-- Constant `LOCKOUT_DURATION_MINUTES = 15` from `views.py`. -/
def LOCKOUT_DURATION_MINUTES : Nat := 15

/-- The persisted principal record (`authentication.models.User`), restricted
to the fields the authentication engine reads or writes. -/
structure UserRec where
  id : Nat
  passwordHash : String
  role : String
  mfaEnabled : Bool
  mfaSecret : Option String
  mfaRecoveryCodes : List String
  failedLoginAttempts : Nat
  lockedUntil : Option Nat
deriving DecidableEq

/-- Method `user.check_password` on the model: verify against the stored hash. -/
def UserRec.checkPassword (u : UserRec) (plain : String) : Bool :=
  check_password plain u.passwordHash

/-- Decoded JWT payload as PyJWT and simplejwt see it.  `typ` is the custom
`type` claim carried by MFA temp tokens; `tokenType` is simplejwt's
`token_type` claim on access/refresh tokens (absent on temp tokens). -/
structure JwtPayload where
  userId : Nat
  exp : Nat
  typ : Option String
  tokenType : Option String
deriving DecidableEq

/-- A signed token: payload plus the key it was signed with.  `jwt.decode`
with the server key succeeds exactly when `key` equals the server key. -/
structure Jwt where
  payload : JwtPayload
  key : String
deriving DecidableEq

/-- Function `generate_temp_token` from `views.py`: payload
`{user_id, exp = now + 5 minutes, type = mfa_temp}` signed with the server
secret. -/
def generate_temp_token (u : UserRec) (now : Nat) (secretKey : String) : Jwt :=
  { payload :=
      { userId := u.id
        exp := now + 5 * 60
        typ := some "mfa_temp"
        tokenType := none }
    key := secretKey }

/-- Payload of a simplejwt access token produced by `get_tokens_for_user`:
carries `token_type = access` and no custom `type` claim. -/
def access_token_payload (u : UserRec) (iat lifetime : Nat) : JwtPayload :=
  { userId := u.id, exp := iat + lifetime, typ := none, tokenType := some "access" }

/-- Function `verify_temp_token` from `views.py`: decode (signature then expiry, as
PyJWT validates, expired when `exp <= now`), then require the `type` claim
to be `mfa_temp`; every failure normalises to `none`. -/
def verify_temp_token (tok : Jwt) (now : Nat) (secretKey : String) : Option Nat :=
  if tok.key ≠ secretKey then none
  else if tok.payload.exp ≤ now then none
  else if tok.payload.typ = some "mfa_temp" then some tok.payload.userId
  else none

/-- HTTP-level outcome of `login_view`, as visible to the caller. -/
inductive HttpResp where
  | tokens (userId : Nat)
  | mfaRequired (tempToken : Jwt)
  | err (status : Nat) (msg : String)
deriving DecidableEq

/-- The password-check half of `login_view` (everything after the lockout
gate): increment-and-maybe-lock on failure, reset counters then MFA / token
issuance on success. -/
def login_password_phase (user : UserRec) (password : String) (now : Nat)
    (secretKey : String) : HttpResp × Option UserRec :=
  if ¬ user.checkPassword password then
    let attempts := user.failedLoginAttempts + 1
    if attempts > MAX_FAILED_ATTEMPTS then
      (.err 403 ("Too many failed attempts. Account locked for " ++
          toString LOCKOUT_DURATION_MINUTES ++ " minutes."),
       some { user with failedLoginAttempts := attempts
                        lockedUntil := some (now + LOCKOUT_DURATION_MINUTES * 60) })
    else
      (.err 401 ("Invalid credentials. " ++
          toString (MAX_FAILED_ATTEMPTS - attempts + 1) ++ " attempts remaining."),
       some { user with failedLoginAttempts := attempts })
  else
    let user' := { user with failedLoginAttempts := 0, lockedUntil := none }
    if user'.mfaEnabled then
      (.mfaRequired (generate_temp_token user' now secretKey), some user')
    else
      (.tokens user'.id, some user')

/-- View `login_view` from `views.py`.  `findUser` is the result of resolving the
submitted identifier (by email or username); the second component is the
persisted state of that principal after the call (`none` when no principal
was resolved).  `(lockedUntil - now).seconds // 60` mirrors Python
`timedelta.seconds`, the within-day seconds component. -/
def login_view (findUser : Option UserRec) (password : String) (now : Nat)
    (secretKey : String) : HttpResp × Option UserRec :=
  match findUser with
  | none => (.err 401 "Invalid credentials", none)
  | some user =>
    match user.lockedUntil with
    | some t =>
      if now < t then
        (.err 403 ("Account is locked. Try again in " ++
            toString (((t - now) % 86400) / 60) ++ " minutes."), some user)
      else
        login_password_phase { user with lockedUntil := none, failedLoginAttempts := 0 }
          password now secretKey
    | none => login_password_phase user password now secretKey

/-- Principal state after `n` successive calls to `login_view` with the same
submitted password, threading the persisted record through. -/
def userAfterLogins (u : UserRec) (pw : String) (now : Nat) (key : String) :
    Nat → Option UserRec
  | 0 => some u
  | n + 1 =>
    (userAfterLogins u pw now key n).bind fun v => (login_view (some v) pw now key).2

/-- Response of the `(n+1)`-th successive call to `login_view` (so `n` prior
calls have already mutated the record). -/
def nthLoginResp (u : UserRec) (pw : String) (now : Nat) (key : String) (n : Nat) :
    Option HttpResp :=
  (userAfterLogins u pw now key n).map fun v => (login_view (some v) pw now key).1

/-- A concrete fresh principal, used by witnesses and counterexamples. -/
def sampleUser : UserRec :=
  { id := 1
    passwordHash := make_password "CorrectHorse$1"
    role := "patient"
    mfaEnabled := false
    mfaSecret := none
    mfaRecoveryCodes := []
    failedLoginAttempts := 0
    lockedUntil := none }


/-- Outcome of `mfa_login_view` as visible to the caller. -/
inductive MfaResp where
  | tokens (userId : Nat)
  | err (status : Nat) (msg : String)
deriving DecidableEq

/-- The recovery-code scan of `mfa_login_view`: walk the stored hashed codes
in order; on the first hash the submitted code verifies against, delete that
entry (`pop`) and return the remaining list; `none` when no entry matches. -/
def popMatchedCode (code : String) : List String → Option (List String)
  | [] => none
  | h :: t =>
    if check_password code h then some t
    else (popMatchedCode code t).map fun l => h :: l

/-- pyotp `TOTP.verify(otp, valid_window = w)` at Unix time `now`: accept
exactly when the code generated at some counter offset in `[-w, w]` around
`now / 30` equals the submitted code.  `digest` abstracts pyotp
`generate_otp` seeded by the user's `mfa_secret` (HMAC internals are an
external collaborator). -/
def totpVerify (digest : Int → Nat) (now : Nat) (w : Nat) (otp : Nat) : Bool :=
  (List.range (2 * w + 1)).any fun j =>
    digest ((now / 30 : Nat) + (j : Int) - (w : Int)) == otp

/-- View `mfa_login_view` from `views.py`.  The `MFALoginSerializer` gate (exactly
one of `otp` / `recovery_code`) runs first; then temp-token verification,
user resolution (`findUser` over the verified id), the MFA-configuration
check, and the recovery-code or TOTP branch (`valid_window = 6`).  The
second component is the persisted state of the resolved principal after the
call. -/
def mfa_login_view (tempToken : Jwt) (otp : Option Nat) (recoveryCode : Option String)
    (findUser : Nat → Option UserRec) (digest : Int → Nat) (now : Nat)
    (secretKey : String) : MfaResp × Option UserRec :=
  match otp, recoveryCode with
  | none, none => (.err 400 "Either otp or recovery_code must be provided", none)
  | some _, some _ => (.err 400 "Provide either otp or recovery_code, not both", none)
  | otp?, recovery? =>
    match verify_temp_token tempToken now secretKey with
    | none => (.err 401 "Invalid or expired temporary token", none)
    | some userId =>
      match findUser userId with
      | none => (.err 404 "User not found", none)
      | some user =>
        if ¬ user.mfaEnabled ∨ user.mfaSecret = none then
          (.err 400 "MFA not enabled for this user", some user)
        else
          match recovery? with
          | some code =>
            if user.mfaRecoveryCodes = [] then
              (.err 400 "No recovery codes available", some user)
            else
              match popMatchedCode code user.mfaRecoveryCodes with
              | some remaining =>
                (.tokens user.id, some { user with mfaRecoveryCodes := remaining })
              | none => (.err 401 "Invalid recovery code", some user)
          | none =>
            match otp? with
            | some o =>
              if totpVerify digest now 6 o then (.tokens user.id, some user)
              else (.err 401 "Invalid OTP code", some user)
            | none => (.err 400 "Either otp or recovery_code must be provided", some user)

/-- Python `str.lower()` (ASCII-relevant part): lowercase every character. -/
def lowerString (s : String) : String := ⟨s.data.map Char.toLower⟩

/-- Python `str.startswith(p)`: `p` is a leading slice of `s`. -/
def startsWithString (s p : String) : Bool := p.data.isPrefixOf s.data

/-- Python `sub in s`: some suffix of `s` starts with `sub`. -/
def strContains (s sub : String) : Bool :=
  (List.range (s.data.length + 1)).any fun i => sub.data.isPrefixOf (s.data.drop i)

/-- A request as `RoleMiddleware` sees it after its JWT force-authentication
step: whether a user is attached (invalid/missing bearer tokens silently
leave the request anonymous), the user's `role` attribute (empty string when
absent), and the request path. -/
structure GateRequest where
  isAuthenticated : Bool
  role : String
  path : String
deriving DecidableEq

/-- What `RoleMiddleware.__call__` does with the request: short-circuit with
a 403 `JsonResponse`, or pass it on to `get_response`. -/
inductive GateDecision where
  | forbidden (msg : String)
  | pass
deriving DecidableEq

/-- Method `RoleMiddleware.__call__` from `middleware.py`: anonymous requests pass
through; authenticated requests are checked against the three path-area
rules on the lowercased role. -/
def RoleMiddleware_call (req : GateRequest) : GateDecision :=
  if ¬ req.isAuthenticated then .pass
  else
    let role := lowerString req.role
    if startsWithString req.path "/api/doctor/" ∧ role ≠ "provider" then
      .forbidden "Forbidden: Doctor Access Only"
    else if startsWithString req.path "/api/patient/" ∧ role ≠ "patient" then
      .forbidden "Forbidden: Patient Access Only"
    else if startsWithString req.path "/api/admin/" ∧ role ≠ "admin" then
      .forbidden "Forbidden: Admin Access Only"
    else .pass

/-- The persisted `authentication.models.Invitation` record, restricted to
the fields `register_view` reads or writes. -/
structure Invitation where
  email : String
  isUsed : Bool
  usedAt : Option Nat
  usedById : Option Nat
  expiresAt : Nat
deriving DecidableEq

/-- Method `Invitation.mark_as_used` from `models.py`. -/
def Invitation.mark_as_used (inv : Invitation) (userId : Nat) (now : Nat) : Invitation :=
  { inv with isUsed := true, usedAt := some now, usedById := some userId }

/-- Outcome of `register_view` as visible to the caller. -/
inductive RegResp where
  | created (userId : Nat)
  | err (status : Nat) (msg : String)
deriving DecidableEq

/-- View `register_view` from `views.py`.  `findInvitation` resolves a token to
the stored invitation; `payloadValid` is the verdict of
`UserRegistrationSerializer.is_valid()` and `newUserId` the id of the
principal it would create.  The second component is the persisted state of
the resolved invitation after the call (`none` when no invitation was
resolved). -/
def register_view (tokenGiven : Option String) (findInvitation : String → Option Invitation)
    (payloadEmail : String) (payloadValid : Bool) (newUserId : Nat) (now : Nat) :
    RegResp × Option Invitation :=
  match tokenGiven with
  | none => (.err 400 "Invitation token is required for registration", none)
  | some tok =>
    match findInvitation tok with
    | none => (.err 404 "Invalid invitation token", none)
    | some inv =>
      if inv.isUsed then (.err 400 "This invitation has already been used", some inv)
      else if inv.expiresAt < now then (.err 400 "This invitation has expired", some inv)
      else if payloadEmail ≠ inv.email then
        (.err 400 "Email does not match invitation", some inv)
      else if payloadValid then
        (.created newUserId, some (inv.mark_as_used newUserId now))
      else (.err 400 "serializer validation errors", some inv)

theorem login_view_no_lock (u : UserRec) (pw : String) (now : Nat) (key : String)
    (h : u.lockedUntil = none) :
    login_view (some u) pw now key = login_password_phase u pw now key := by
  simp [login_view, h]

theorem login_password_phase_fail_small (u : UserRec) (pw : String) (now : Nat)
    (key : String) (hpw : u.checkPassword pw = false) (hk : u.failedLoginAttempts < 5) :
    login_password_phase u pw now key
      = (.err 401 ("Invalid credentials. " ++
            toString (5 - u.failedLoginAttempts) ++ " attempts remaining."),
         some { u with failedLoginAttempts := u.failedLoginAttempts + 1 }) := by
  have h5 : ¬ (u.failedLoginAttempts + 1 > MAX_FAILED_ATTEMPTS) := by
    simp [MAX_FAILED_ATTEMPTS]; omega
  have harith : MAX_FAILED_ATTEMPTS - (u.failedLoginAttempts + 1) + 1
      = 5 - u.failedLoginAttempts := by
    simp [MAX_FAILED_ATTEMPTS]; omega
  simp [login_password_phase, hpw, h5, harith]

theorem login_password_phase_fail_lock (u : UserRec) (pw : String) (now : Nat)
    (key : String) (hpw : u.checkPassword pw = false) (hk : 5 ≤ u.failedLoginAttempts) :
    login_password_phase u pw now key
      = (.err 403 "Too many failed attempts. Account locked for 15 minutes.",
         some { u with failedLoginAttempts := u.failedLoginAttempts + 1
                       lockedUntil := some (now + LOCKOUT_DURATION_MINUTES * 60) }) := by
  have h5 : u.failedLoginAttempts + 1 > MAX_FAILED_ATTEMPTS := by
    simp [MAX_FAILED_ATTEMPTS]; omega
  simp [login_password_phase, hpw, h5]
  decide

theorem userAfterLogins_of_fail (u : UserRec) (pw : String) (now : Nat) (key : String)
    (h0 : u.failedLoginAttempts = 0) (hnl : u.lockedUntil = none)
    (hpw : u.checkPassword pw = false) :
    ∀ n, n ≤ 5 → userAfterLogins u pw now key n = some { u with failedLoginAttempts := n } := by
  intro n
  induction n with
  | zero =>
    intro _
    have : { u with failedLoginAttempts := 0 } = u := by
      cases u; simp_all
    rw [userAfterLogins, this]
  | succ m ih =>
    intro hn
    have hm := ih (by omega)
    rw [userAfterLogins, hm]
    have hul : ({ u with failedLoginAttempts := m } : UserRec).lockedUntil = none := hnl
    have hcp : ({ u with failedLoginAttempts := m } : UserRec).checkPassword pw = false := hpw
    simp only [Option.some_bind, login_view_no_lock _ _ _ _ hul,
      login_password_phase_fail_small _ _ _ _ hcp (by simp; omega)]

theorem login_password_phase_lockedUntil (u : UserRec) (pw : String) (now : Nat)
    (key : String) (hnl : u.lockedUntil = none) :
    ∀ u', (login_password_phase u pw now key).2 = some u' →
      u'.lockedUntil = none ∨ u'.lockedUntil = some (now + LOCKOUT_DURATION_MINUTES * 60) := by
  intro u' h
  by_cases hpw : u.checkPassword pw
  · by_cases hm : u.mfaEnabled <;>
      simp [login_password_phase, hpw, hm] at h <;>
      subst h <;> left <;> rfl
  · by_cases hk : u.failedLoginAttempts + 1 > MAX_FAILED_ATTEMPTS
    · simp [login_password_phase, hpw, hk] at h
      subst h
      right
      rfl
    · simp [login_password_phase, hpw, hk] at h
      subst h
      left
      exact hnl

/-- Claim C1: from zero failed attempts and no lock, each of the first five
consecutive failed logins returns the 401 invalid-credentials response with
a remaining-attempts count (the fifth, at index 4, reporting one attempt
remaining), the record after five failures still has `locked_until` null,
and only the sixth consecutive failure returns the locked failure and sets
`locked_until`. -/
theorem six_consecutive_failures_lock (u : UserRec) (pw : String) (now : Nat)
    (key : String) (h0 : u.failedLoginAttempts = 0) (hnl : u.lockedUntil = none)
    (hpw : u.checkPassword pw = false) :
    (∀ n, n < 5 → nthLoginResp u pw now key n
        = some (.err 401 ("Invalid credentials. " ++
            toString (5 - n) ++ " attempts remaining.")))
    ∧ (userAfterLogins u pw now key 5).map UserRec.lockedUntil = some none
    ∧ nthLoginResp u pw now key 5
        = some (.err 403 "Too many failed attempts. Account locked for 15 minutes.")
    ∧ userAfterLogins u pw now key 6
        = some { u with failedLoginAttempts := 6
                        lockedUntil := some (now + LOCKOUT_DURATION_MINUTES * 60) } := by
  refine ⟨?_, ?_, ?_, ?_⟩
  · intro n hn
    rw [nthLoginResp, userAfterLogins_of_fail u pw now key h0 hnl hpw n (by omega)]
    have hcp : ({ u with failedLoginAttempts := n } : UserRec).checkPassword pw = false := hpw
    have hul : ({ u with failedLoginAttempts := n } : UserRec).lockedUntil = none := hnl
    simp only [Option.map_some', login_view_no_lock _ _ _ _ hul,
      login_password_phase_fail_small _ _ _ _ hcp (by simpa using hn)]
  · rw [userAfterLogins_of_fail u pw now key h0 hnl hpw 5 (le_refl 5)]
    simpa using hnl
  · rw [nthLoginResp, userAfterLogins_of_fail u pw now key h0 hnl hpw 5 (le_refl 5)]
    have hcp : ({ u with failedLoginAttempts := 5 } : UserRec).checkPassword pw = false := hpw
    have hul : ({ u with failedLoginAttempts := 5 } : UserRec).lockedUntil = none := hnl
    simp only [Option.map_some', login_view_no_lock _ _ _ _ hul,
      login_password_phase_fail_lock _ _ _ _ hcp (by simp)]
  · rw [show (6 : Nat) = 5 + 1 from rfl, userAfterLogins,
      userAfterLogins_of_fail u pw now key h0 hnl hpw 5 (le_refl 5)]
    have hcp : ({ u with failedLoginAttempts := 5 } : UserRec).checkPassword pw = false := hpw
    have hul : ({ u with failedLoginAttempts := 5 } : UserRec).lockedUntil = none := hnl
    simp only [Option.some_bind, login_view_no_lock _ _ _ _ hul,
      login_password_phase_fail_lock _ _ _ _ hcp (by simp)]

/-- Witness for C1 at a concrete principal: the sixth consecutive failure
returns the locked failure. -/
theorem six_consecutive_failures_lock_witness :
    sampleUser.failedLoginAttempts = 0 ∧ sampleUser.lockedUntil = none
    ∧ sampleUser.checkPassword "wrong" = false
    ∧ nthLoginResp sampleUser "wrong" 1000 "k" 5
        = some (.err 403 "Too many failed attempts. Account locked for 15 minutes.") :=
  ⟨rfl, rfl, by decide,
    (six_consecutive_failures_lock sampleUser "wrong" 1000 "k" rfl rfl
      (by decide)).2.2.1⟩

/-- Claim C2: any lock present on the record after a login call is either the
still-active pre-existing lock or exactly `now + 15` minutes (so locking
always sets `locked_until = now + 15min`); and every login call made while
`now < locked_until` returns the 403 locked failure carrying the remaining
time, regardless of the submitted password — correct password included —
with the record (counters included) unchanged. -/
theorem lock_is_15min_and_rejects_while_locked (u : UserRec) (pw : String)
    (now : Nat) (key : String) :
    (∀ u' t, (login_view (some u) pw now key).2 = some u' → u'.lockedUntil = some t →
        (u.lockedUntil = some t ∧ now < t) ∨ t = now + LOCKOUT_DURATION_MINUTES * 60)
    ∧ (∀ t, u.lockedUntil = some t → now < t →
        login_view (some u) pw now key
          = (.err 403 ("Account is locked. Try again in " ++
              toString (((t - now) % 86400) / 60) ++ " minutes."), some u)) := by
  constructor
  · intro u' t h hlock
    cases hu : u.lockedUntil with
    | none =>
      rw [login_view_no_lock _ _ _ _ hu] at h
      rcases login_password_phase_lockedUntil u pw now key hu u' h with h1 | h1
      · rw [hlock] at h1; exact absurd h1 (by simp)
      · rw [hlock] at h1; right; exact Option.some.inj h1
    | some s =>
      by_cases hlt : now < s
      · simp only [login_view, hu, hlt, if_true, Option.some.injEq] at h
        have h2 : u.lockedUntil = some t := by rw [h]; exact hlock
        rw [hu] at h2
        obtain rfl := Option.some.inj h2
        exact Or.inl ⟨rfl, hlt⟩
      · simp only [login_view, hu, hlt, if_false] at h
        have hnl' : ({ u with lockedUntil := none, failedLoginAttempts := 0 } :
            UserRec).lockedUntil = none := rfl
        rcases login_password_phase_lockedUntil _ pw now key hnl' u' h with h1 | h1
        · rw [hlock] at h1; exact absurd h1 (by simp)
        · rw [hlock] at h1; right; exact Option.some.inj h1
  · intro t ht hlt
    simp [login_view, ht, hlt]

/-- A concrete principal locked until time 1000, used by witnesses. -/
def lockedUser : UserRec :=
  { sampleUser with failedLoginAttempts := 6, lockedUntil := some 1000 }

/-- Witness for C2: while locked, the objectively correct password is
rejected with the 403 locked failure carrying the remaining minutes, and
the record is unchanged. -/
theorem lock_is_15min_and_rejects_while_locked_witness :
    lockedUser.lockedUntil = some 1000 ∧ (400 : Nat) < 1000
    ∧ lockedUser.checkPassword "CorrectHorse$1" = true
    ∧ login_view (some lockedUser) "CorrectHorse$1" 400 "k"
        = (.err 403 "Account is locked. Try again in 10 minutes.", some lockedUser) :=
  ⟨rfl, by decide, by decide,
    ((lock_is_15min_and_rejects_while_locked lockedUser "CorrectHorse$1" 400 "k").2
        1000 rfl (by decide)).trans (by decide)⟩

/-- Claim C8: when `locked_until` is set and has elapsed (`locked_until <=
now`), the login call resets the counters before evaluating the submitted
credentials, so a failure on that call reports five attempts remaining and
leaves the count at 1 — not prior count + 1 — whatever the prior count was. -/
theorem lapsed_lock_resets_counters (u : UserRec) (pw : String) (now : Nat)
    (key : String) (t : Nat) (hl : u.lockedUntil = some t) (ht : t ≤ now)
    (hpw : u.checkPassword pw = false) :
    login_view (some u) pw now key
      = (.err 401 "Invalid credentials. 5 attempts remaining.",
         some { u with failedLoginAttempts := 1, lockedUntil := none }) := by
  have hnlt : ¬ now < t := by omega
  have hcp : ({ u with lockedUntil := none, failedLoginAttempts := 0 } :
      UserRec).checkPassword pw = false := hpw
  simp only [login_view, hl, hnlt, if_false,
    login_password_phase_fail_small _ _ _ _ hcp (by simp)]
  rfl

/-- Witness for C8: a principal with six prior failures and an elapsed lock
fails a fresh attempt with "5 attempts remaining" and count 1. -/
theorem lapsed_lock_resets_counters_witness :
    lockedUser.lockedUntil = some 1000 ∧ (1000 : Nat) ≤ 2000
    ∧ lockedUser.checkPassword "wrong" = false
    ∧ login_view (some lockedUser) "wrong" 2000 "k"
        = (.err 401 "Invalid credentials. 5 attempts remaining.",
           some { lockedUser with failedLoginAttempts := 1, lockedUntil := none }) :=
  ⟨rfl, by decide, by decide,
    lapsed_lock_resets_counters lockedUser "wrong" 2000 "k" 1000 rfl (by decide) (by decide)⟩

theorem verify_temp_token_fresh (u : UserRec) (issuedAt now : Nat) (key : String)
    (h : now < issuedAt + 5 * 60) :
    verify_temp_token (generate_temp_token u issuedAt key) now key = some u.id := by
  simp [verify_temp_token, generate_temp_token]
  omega

/-- Claim C4: an MFA-pending ticket presented more than 5 minutes after
issuance is rejected by `verify_temp_token`, and `mfa_login_view` then
returns the 401 authentication failure issuing no tokens; any token whose
`type` claim is not `mfa_temp` — in particular a simplejwt access token,
which carries `token_type` and no `type` claim — is rejected the same way,
because the type tag is checked before acceptance. -/
theorem temp_token_expiry_and_type_tag (u : UserRec) (issuedAt now : Nat) (key : String) :
    (issuedAt + 5 * 60 < now →
      verify_temp_token (generate_temp_token u issuedAt key) now key = none)
    ∧ (∀ tok : Jwt, tok.payload.typ ≠ some "mfa_temp" →
        verify_temp_token tok now key = none)
    ∧ (∀ iat lifetime,
        verify_temp_token { payload := access_token_payload u iat lifetime, key := key }
          now key = none)
    ∧ (∀ tok : Jwt, verify_temp_token tok now key = none →
        ∀ (o : Nat) (c : String) (findUser : Nat → Option UserRec) (digest : Int → Nat),
          mfa_login_view tok (some o) none findUser digest now key
            = (.err 401 "Invalid or expired temporary token", none)
          ∧ mfa_login_view tok none (some c) findUser digest now key
            = (.err 401 "Invalid or expired temporary token", none)) := by
  refine ⟨?_, ?_, ?_, ?_⟩
  · intro h
    simp [verify_temp_token, generate_temp_token]
    omega
  · intro tok htyp
    by_cases hkey : tok.key = key
    · by_cases hexp : tok.payload.exp ≤ now <;> simp [verify_temp_token, hkey, hexp, htyp]
    · simp [verify_temp_token, hkey]
  · intro iat lifetime
    by_cases hexp : iat + lifetime ≤ now <;>
      simp [verify_temp_token, access_token_payload, hexp]
  · intro tok hver o c findUser digest
    exact ⟨by simp [mfa_login_view, hver], by simp [mfa_login_view, hver]⟩

/-- Witness for C4: a ticket issued at time 0 is rejected at time 301, and a
fresh access token is rejected where a ticket is expected. -/
theorem temp_token_expiry_and_type_tag_witness :
    ((0 : Nat) + 5 * 60 < 301
      ∧ verify_temp_token (generate_temp_token sampleUser 0 "k") 301 "k" = none)
    ∧ verify_temp_token { payload := access_token_payload sampleUser 301 3600, key := "k" }
        301 "k" = none := by
  have h := temp_token_expiry_and_type_tag sampleUser 0 301 "k"
  exact ⟨⟨by decide, h.1 (by decide)⟩, h.2.2.1 301 3600⟩

theorem totpVerify_iff (digest : Int → Nat) (now : Nat) (w : Nat) (otp : Nat) :
    totpVerify digest now w otp = true
      ↔ ∃ i : Int, -(w : Int) ≤ i ∧ i ≤ (w : Int)
          ∧ digest (((now / 30 : Nat) : Int) + i) = otp := by
  unfold totpVerify
  rw [List.any_eq_true]
  constructor
  · rintro ⟨j, hj, hd⟩
    rw [List.mem_range] at hj
    refine ⟨(j : Int) - (w : Int), by omega, by omega, ?_⟩
    have hd' := of_decide_eq_true hd
    have hrw : ((now / 30 : Nat) : Int) + ((j : Int) - (w : Int))
        = ((now / 30 : Nat) : Int) + (j : Int) - (w : Int) := by ring
    rw [hrw]
    exact hd'
  · rintro ⟨i, h1, h2, hd⟩
    refine ⟨(i + (w : Int)).toNat, ?_, ?_⟩
    · rw [List.mem_range]; omega
    · have hcast : (((i + (w : Int)).toNat : Int)) = i + (w : Int) := by omega
      have hrw : ((now / 30 : Nat) : Int) + (((i + (w : Int)).toNat : Int)) - (w : Int)
          = ((now / 30 : Nat) : Int) + i := by rw [hcast]; ring
      simp only [beq_iff_eq, hrw]
      exact hd

/-- Claim C7: with a fresh ticket and MFA configured, completing login with
an OTP succeeds (tokens issued) exactly when `totpVerify` with the
configured window 6 accepts the code, and `totpVerify` accepts exactly the
codes generated at a 30-second counter offset within ±6 steps (±180 s) of
the current counter; every other code is rejected with the 401 invalid-OTP
failure. -/
theorem totp_login_window (u : UserRec) (s : String) (issuedAt now : Nat) (key : String)
    (digest : Int → Nat) (findUser : Nat → Option UserRec) (otp : Nat)
    (hen : u.mfaEnabled = true) (hsec : u.mfaSecret = some s)
    (hfind : findUser u.id = some u) (hfresh : now < issuedAt + 5 * 60) :
    mfa_login_view (generate_temp_token u issuedAt key) (some otp) none findUser digest now key
      = (if totpVerify digest now 6 otp then (.tokens u.id, some u)
         else (.err 401 "Invalid OTP code", some u))
    ∧ (totpVerify digest now 6 otp = true
        ↔ ∃ i : Int, -6 ≤ i ∧ i ≤ 6 ∧ digest (((now / 30 : Nat) : Int) + i) = otp) := by
  constructor
  · simp [mfa_login_view, verify_temp_token_fresh u issuedAt now key hfresh, hfind, hen, hsec]
  · simpa using totpVerify_iff digest now 6 otp

/-- A concrete MFA-enabled principal with two stored recovery-code hashes. -/
def mfaUser : UserRec :=
  { id := 2
    passwordHash := make_password "CorrectHorse$2"
    role := "patient"
    mfaEnabled := true
    mfaSecret := some "JBSWY3DPEHPK3PXP"
    mfaRecoveryCodes := [make_password "AAAA1111", make_password "BBBB2222"]
    failedLoginAttempts := 0
    lockedUntil := none }

/-- Witness for C7: a code matching at counter offset +6 is accepted, one
matching only at offset +7 is rejected. -/
theorem totp_login_window_witness :
    mfaUser.mfaEnabled = true ∧ mfaUser.mfaSecret = some "JBSWY3DPEHPK3PXP"
    ∧ (1000 : Nat) < 900 + 5 * 60
    ∧ mfa_login_view (generate_temp_token mfaUser 900 "k") (some 123456) none
        (fun i => if i = 2 then some mfaUser else none)
        (fun c => if c = 39 then 123456 else 654321) 1000 "k"
      = (.tokens 2, some mfaUser)
    ∧ mfa_login_view (generate_temp_token mfaUser 900 "k") (some 123456) none
        (fun i => if i = 2 then some mfaUser else none)
        (fun c => if c = 40 then 123456 else 654321) 1000 "k"
      = (.err 401 "Invalid OTP code", some mfaUser) := by
  have h1 := totp_login_window mfaUser "JBSWY3DPEHPK3PXP" 900 1000 "k"
    (fun c => if c = 39 then 123456 else 654321)
    (fun i => if i = 2 then some mfaUser else none) 123456 rfl rfl (by decide) (by decide)
  have h2 := totp_login_window mfaUser "JBSWY3DPEHPK3PXP" 900 1000 "k"
    (fun c => if c = 40 then 123456 else 654321)
    (fun i => if i = 2 then some mfaUser else none) 123456 rfl rfl (by decide) (by decide)
  refine ⟨rfl, rfl, by decide, h1.1.trans (by decide), h2.1.trans (by decide)⟩

theorem mfa_login_recovery_path (u : UserRec) (issuedAt now : Nat) (key : String)
    (digest : Int → Nat) (findUser : Nat → Option UserRec) (code : String)
    (hen : u.mfaEnabled = true) (hsec : u.mfaSecret ≠ none)
    (hfind : findUser u.id = some u) (hfresh : now < issuedAt + 5 * 60) :
    mfa_login_view (generate_temp_token u issuedAt key) none (some code) findUser digest now key
      = (if u.mfaRecoveryCodes = [] then (.err 400 "No recovery codes available", some u)
         else
           match popMatchedCode code u.mfaRecoveryCodes with
           | some remaining => (.tokens u.id, some { u with mfaRecoveryCodes := remaining })
           | none => (.err 401 "Invalid recovery code", some u)) := by
  simp [mfa_login_view, verify_temp_token_fresh u issuedAt now key hfresh, hfind, hen, hsec]

theorem popMatchedCode_eq_none (code : String) (l : List String) :
    popMatchedCode code l = none ↔ ∀ x ∈ l, check_password code x = false := by
  induction l with
  | nil => simp [popMatchedCode]
  | cons hd tl ih =>
    by_cases hc : check_password code hd <;> simp [popMatchedCode, hc, ih]

theorem popMatchedCode_spec (code : String) (l l' : List String)
    (h : popMatchedCode code l = some l') :
    l.countP (fun x => check_password code x)
        = l'.countP (fun x => check_password code x) + 1
    ∧ l.length = l'.length + 1 := by
  induction l generalizing l' with
  | nil => simp [popMatchedCode] at h
  | cons hd tl ih =>
    by_cases hc : check_password code hd
    · rw [popMatchedCode, if_pos (by simp [hc])] at h
      obtain rfl := Option.some.inj h
      simp [List.countP_cons, hc]
    · rw [popMatchedCode, if_neg (by simp [hc]), Option.map_eq_some'] at h
      obtain ⟨m, hm, hl⟩ := h
      subst hl
      have := ih m hm
      simp [List.countP_cons, hc, this.1, this.2]

/-- An MFA-enabled principal holding a single stored recovery-code hash. -/
def oneCodeUser : UserRec :=
  { mfaUser with id := 3, mfaRecoveryCodes := [make_password "ZZZZ9999"] }

/-- The state of `oneCodeUser` after its only recovery code has been consumed. -/
def oneCodeUserAfter : UserRec := { oneCodeUser with mfaRecoveryCodes := [] }

/-- Counterexample to C3 as stated: for a principal whose stored list held
exactly one code, consuming it succeeds and deletes it, but presenting the
same already-consumed code again fails with the 400 no-recovery-codes error,
not with the 401 invalid-recovery-code failure the claim names. -/
theorem recovery_code_reuse_counterexample :
    mfa_login_view (generate_temp_token oneCodeUser 0 "k") none (some "ZZZZ9999")
        (fun i => if i = 3 then some oneCodeUser else none) (fun _ => 0) 100 "k"
      = (.tokens 3, some oneCodeUserAfter)
    ∧ mfa_login_view (generate_temp_token oneCodeUser 0 "k") none (some "ZZZZ9999")
        (fun i => if i = 3 then some oneCodeUserAfter else none) (fun _ => 0) 100 "k"
      = (.err 400 "No recovery codes available", some oneCodeUserAfter)
    ∧ MfaResp.err 400 "No recovery codes available" ≠ .err 401 "Invalid recovery code" :=
  ⟨by decide, by decide, by decide⟩

/-- Claim C3 (amended): a recovery code matching exactly one stored hash can
be used at most once — a successful recovery-code login removes the matching
entry from the stored list (deleted, the list shrinks by one) and issues
tokens, and a subsequent MFA-login with the same consumed code issues no
tokens: it fails with the 401 invalid-recovery-code failure when other codes
remain stored, and with the distinct 400 no-recovery-codes error when the
consumed code was the last one. -/
theorem recovery_code_single_use (u : UserRec) (issuedAt now now' : Nat) (key : String)
    (digest : Int → Nat) (code : String)
    (hen : u.mfaEnabled = true) (hsec : u.mfaSecret ≠ none)
    (hfresh : now < issuedAt + 5 * 60) (hfresh' : now' < issuedAt + 5 * 60)
    (hcount : u.mfaRecoveryCodes.countP (fun x => check_password code x) = 1) :
    ∃ remaining,
      popMatchedCode code u.mfaRecoveryCodes = some remaining
      ∧ mfa_login_view (generate_temp_token u issuedAt key) none (some code)
          (fun i => if i = u.id then some u else none) digest now key
        = (.tokens u.id, some { u with mfaRecoveryCodes := remaining })
      ∧ remaining.length + 1 = u.mfaRecoveryCodes.length
      ∧ remaining.countP (fun x => check_password code x) = 0
      ∧ mfa_login_view (generate_temp_token u issuedAt key) none (some code)
          (fun i => if i = u.id then some { u with mfaRecoveryCodes := remaining } else none)
          digest now' key
        = (if remaining = []
           then (.err 400 "No recovery codes available",
                 some { u with mfaRecoveryCodes := remaining })
           else (.err 401 "Invalid recovery code",
                 some { u with mfaRecoveryCodes := remaining })) := by
  have hne : u.mfaRecoveryCodes ≠ [] := by
    intro h
    rw [h] at hcount
    simp at hcount
  have hpop : popMatchedCode code u.mfaRecoveryCodes ≠ none := by
    intro h
    rw [popMatchedCode_eq_none] at h
    have h0 : u.mfaRecoveryCodes.countP (fun x => check_password code x) = 0 :=
      List.countP_eq_zero.mpr (by intro a ha; simp [h a ha])
    omega
  obtain ⟨remaining, hrem⟩ := Option.ne_none_iff_exists'.mp hpop
  have spec := popMatchedCode_spec code u.mfaRecoveryCodes remaining hrem
  have hcnt0 : remaining.countP (fun x => check_password code x) = 0 := by omega
  have hpop0 : popMatchedCode code remaining = none :=
    (popMatchedCode_eq_none code remaining).mpr (by
      intro x hx
      have := List.countP_eq_zero.mp hcnt0 x hx
      simpa using this)
  refine ⟨remaining, hrem, ?_, by omega, hcnt0, ?_⟩
  · rw [mfa_login_recovery_path u issuedAt now key digest _ code hen hsec (by simp) hfresh,
      if_neg hne, hrem]
  · have hconv : generate_temp_token u issuedAt key
        = generate_temp_token { u with mfaRecoveryCodes := remaining } issuedAt key := rfl
    rw [hconv, mfa_login_recovery_path { u with mfaRecoveryCodes := remaining } issuedAt now' key
      digest _ code hen hsec (by simp) hfresh']
    by_cases h0 : remaining = []
    · simp [h0]
    · simp [h0, hpop0]

/-- Witness for C3 (amended): consuming one of two stored codes issues
tokens and deletes the entry; reusing it fails with the 401
invalid-recovery-code failure. -/
theorem recovery_code_single_use_witness :
    mfaUser.mfaEnabled = true ∧ mfaUser.mfaSecret ≠ none
    ∧ (1000 : Nat) < 900 + 5 * 60
    ∧ mfaUser.mfaRecoveryCodes.countP (fun x => check_password "AAAA1111" x) = 1
    ∧ ∃ remaining,
        popMatchedCode "AAAA1111" mfaUser.mfaRecoveryCodes = some remaining
        ∧ mfa_login_view (generate_temp_token mfaUser 900 "k") none (some "AAAA1111")
            (fun i => if i = mfaUser.id then some mfaUser else none) (fun _ => 0) 1000 "k"
          = (.tokens mfaUser.id, some { mfaUser with mfaRecoveryCodes := remaining })
        ∧ remaining.length + 1 = mfaUser.mfaRecoveryCodes.length
        ∧ remaining.countP (fun x => check_password "AAAA1111" x) = 0
        ∧ mfa_login_view (generate_temp_token mfaUser 900 "k") none (some "AAAA1111")
            (fun i => if i = mfaUser.id then
                some { mfaUser with mfaRecoveryCodes := remaining } else none)
            (fun _ => 0) 1000 "k"
          = (if remaining = []
             then (.err 400 "No recovery codes available",
                   some { mfaUser with mfaRecoveryCodes := remaining })
             else (.err 401 "Invalid recovery code",
                   some { mfaUser with mfaRecoveryCodes := remaining })) :=
  ⟨rfl, by decide, by decide, by decide,
    recovery_code_single_use mfaUser 900 1000 1000 "k" (fun _ => 0) "AAAA1111"
      rfl (by decide) (by decide) (by decide) (by decide)⟩

/-- An MFA-enabled principal with an empty stored recovery-code list. -/
def emptyCodesUser : UserRec := { mfaUser with id := 4, mfaRecoveryCodes := [] }

/-- Claim C10: with MFA enabled and an empty stored recovery-code list, any
recovery-code MFA-login returns the distinct 400 no-recovery-codes error
and issues no tokens, observably different from the 401
invalid-recovery-code failure a wrong code receives against a non-empty
list. -/
theorem empty_recovery_list_distinct_error (u v : UserRec) (issuedAt now : Nat)
    (key : String) (digest : Int → Nat) (code : String)
    (hen : u.mfaEnabled = true) (hsec : u.mfaSecret ≠ none)
    (hempty : u.mfaRecoveryCodes = []) (hfresh : now < issuedAt + 5 * 60)
    (hven : v.mfaEnabled = true) (hvsec : v.mfaSecret ≠ none)
    (hvne : v.mfaRecoveryCodes ≠ [])
    (hvmiss : ∀ x ∈ v.mfaRecoveryCodes, check_password code x = false) :
    mfa_login_view (generate_temp_token u issuedAt key) none (some code)
        (fun i => if i = u.id then some u else none) digest now key
      = (.err 400 "No recovery codes available", some u)
    ∧ mfa_login_view (generate_temp_token v issuedAt key) none (some code)
        (fun i => if i = v.id then some v else none) digest now key
      = (.err 401 "Invalid recovery code", some v)
    ∧ MfaResp.err 400 "No recovery codes available" ≠ .err 401 "Invalid recovery code" := by
  refine ⟨?_, ?_, by decide⟩
  · rw [mfa_login_recovery_path u issuedAt now key digest _ code hen hsec (by simp) hfresh,
      if_pos hempty]
  · rw [mfa_login_recovery_path v issuedAt now key digest _ code hven hvsec (by simp) hfresh,
      if_neg hvne, (popMatchedCode_eq_none code v.mfaRecoveryCodes).mpr hvmiss]

/-- Witness for C10 at concrete principals. -/
theorem empty_recovery_list_distinct_error_witness :
    emptyCodesUser.mfaRecoveryCodes = [] ∧ mfaUser.mfaRecoveryCodes ≠ []
    ∧ mfa_login_view (generate_temp_token emptyCodesUser 900 "k") none (some "CCCC3333")
        (fun i => if i = emptyCodesUser.id then some emptyCodesUser else none)
        (fun _ => 0) 1000 "k"
      = (.err 400 "No recovery codes available", some emptyCodesUser)
    ∧ mfa_login_view (generate_temp_token mfaUser 900 "k") none (some "CCCC3333")
        (fun i => if i = mfaUser.id then some mfaUser else none) (fun _ => 0) 1000 "k"
      = (.err 401 "Invalid recovery code", some mfaUser) := by
  have h := empty_recovery_list_distinct_error emptyCodesUser mfaUser 900 1000 "k"
    (fun _ => 0) "CCCC3333" rfl (by decide) rfl (by decide) rfl (by decide) (by decide)
    (by decide)
  exact ⟨rfl, by decide, h.1, h.2.1⟩

/-- Counterexample to C5 as stated: the unknown-identifier failure and the
known-identifier wrong-password failure (below the lockout threshold) are
not identical — the known-identifier body additionally carries a
remaining-attempts count. -/
theorem login_failure_responses_differ :
    (login_view none "guess" 0 "k").1 = .err 401 "Invalid credentials"
    ∧ (login_view (some sampleUser) "guess" 0 "k").1
        = .err 401 "Invalid credentials. 5 attempts remaining."
    ∧ (login_view none "guess" 0 "k").1 ≠ (login_view (some sampleUser) "guess" 0 "k").1 :=
  ⟨rfl, by decide, by decide⟩

/-- Claim C5 (amended): both failing calls return a 401 whose message begins
with the generic "Invalid credentials", and the failure response never
depends on whether MFA is active for the account; but the responses are not
identical — the known-identifier failure appends the remaining-attempts
count, so the body does distinguish an unknown identifier from a wrong
password. -/
theorem login_failure_opacity (u : UserRec) (pw : String) (now : Nat) (key : String)
    (hnl : u.lockedUntil = none) (hlt : u.failedLoginAttempts < 5)
    (hpw : u.checkPassword pw = false) :
    (login_view none pw now key).1 = .err 401 "Invalid credentials"
    ∧ (login_view (some u) pw now key).1
        = .err 401 ("Invalid credentials. " ++
            toString (5 - u.failedLoginAttempts) ++ " attempts remaining.")
    ∧ (∀ b, (login_view (some { u with mfaEnabled := b }) pw now key).1
        = (login_view (some u) pw now key).1) := by
  refine ⟨rfl, ?_, ?_⟩
  · rw [login_view_no_lock _ _ _ _ hnl, login_password_phase_fail_small _ _ _ _ hpw hlt]
  · intro b
    have hnl' : ({ u with mfaEnabled := b } : UserRec).lockedUntil = none := hnl
    have hpw' : ({ u with mfaEnabled := b } : UserRec).checkPassword pw = false := hpw
    rw [login_view_no_lock _ _ _ _ hnl, login_password_phase_fail_small _ _ _ _ hpw hlt,
      login_view_no_lock _ _ _ _ hnl', login_password_phase_fail_small _ _ _ _ hpw' hlt]

/-- Witness for C5 (amended) at a concrete principal. -/
theorem login_failure_opacity_witness :
    sampleUser.lockedUntil = none ∧ sampleUser.failedLoginAttempts < 5
    ∧ sampleUser.checkPassword "guess" = false
    ∧ (login_view none "guess" 7 "k").1 = .err 401 "Invalid credentials"
    ∧ (login_view (some { sampleUser with mfaEnabled := true }) "guess" 7 "k").1
        = (login_view (some sampleUser) "guess" 7 "k").1 :=
  ⟨rfl, by decide, by decide,
    (login_failure_opacity sampleUser "guess" 7 "k" rfl (by decide) (by decide)).1,
    (login_failure_opacity sampleUser "guess" 7 "k" rfl (by decide) (by decide)).2.2 true⟩

/-- Counterexample to C6 as stated: the 403 for a patient in the doctor area
does not contain the role string "provider" anywhere in its message (its
message is the fixed "Forbidden: Doctor Access Only"), and an anonymous
caller on the same restricted path is passed through by the gate, not
rejected. -/
theorem role_gate_counterexample :
    RoleMiddleware_call
        { isAuthenticated := true, role := "patient", path := "/api/doctor/records" }
      = .forbidden "Forbidden: Doctor Access Only"
    ∧ strContains "Forbidden: Doctor Access Only" "provider" = false
    ∧ RoleMiddleware_call
        { isAuthenticated := false, role := "", path := "/api/doctor/records" }
      = .pass :=
  ⟨by decide, by decide, by decide⟩

/-- Claim C6 (amended): an authenticated caller whose lowercased role is not
"provider" — role "patient" in particular — requesting any path under the
doctor area receives the fixed 403 message "Forbidden: Doctor Access Only"
(naming the doctor area, not the literal role string "provider"); anonymous
callers are never rejected by the gate: every unauthenticated request passes
through to downstream permission checks, whatever the path. -/
theorem role_gate_behaviour (role path : String)
    (hpath : startsWithString path "/api/doctor/" = true)
    (hrole : lowerString role ≠ "provider") :
    RoleMiddleware_call { isAuthenticated := true, role := role, path := path }
      = .forbidden "Forbidden: Doctor Access Only"
    ∧ (∀ r p, RoleMiddleware_call { isAuthenticated := false, role := r, path := p }
        = .pass) := by
  constructor
  · simp [RoleMiddleware_call, hpath, hrole]
  · intro r p
    simp [RoleMiddleware_call]

/-- Witness for C6 (amended) at a concrete request. -/
theorem role_gate_behaviour_witness :
    startsWithString "/api/doctor/records" "/api/doctor/" = true
    ∧ lowerString "patient" ≠ "provider"
    ∧ RoleMiddleware_call
        { isAuthenticated := true, role := "patient", path := "/api/doctor/records" }
      = .forbidden "Forbidden: Doctor Access Only" :=
  ⟨by decide, by decide,
    (role_gate_behaviour "patient" "/api/doctor/records" (by decide) (by decide)).1⟩

/-- A concrete live invitation, used by witnesses. -/
def sampleInvitation : Invitation :=
  { email := "a@x.com"
    isUsed := false
    usedAt := none
    usedById := none
    expiresAt := 172800 }

/-- Claim C9: redemption with a payload email that differs from the stored
invitation email is rejected with the mismatch error even though the token
resolved to a live (unused, unexpired) invitation; and on every failing
registration call — missing token, unknown token, used token, expired
token, email mismatch, or payload validation failure — the resolved
invitation record (`is_used`, `used_at`, `used_by` included) is exactly the
record that was stored, untouched. -/
theorem invitation_email_mismatch_and_untouched_on_failure
    (tok : String) (find : String → Option Invitation) (inv : Invitation)
    (email : String) (valid : Bool) (uid now : Nat)
    (hfind : find tok = some inv) (hused : inv.isUsed = false)
    (hexp : ¬ inv.expiresAt < now) (hmm : email ≠ inv.email) :
    register_view (some tok) find email valid uid now
      = (.err 400 "Email does not match invitation", some inv)
    ∧ (∀ (tg : Option String) (f : String → Option Invitation) (e : String)
        (v : Bool) (w n : Nat),
        (∀ uid', (register_view tg f e v w n).1 ≠ .created uid') →
        (register_view tg f e v w n).2 = tg.bind f) := by
  constructor
  · simp [register_view, hfind, hused, hexp, hmm]
  · intro tg f e v w n hfail
    match tg with
    | none => simp [register_view]
    | some t =>
      match hf : f t with
      | none => simp [register_view, hf]
      | some i =>
        by_cases h1 : i.isUsed
        · simp [register_view, hf, h1]
        · by_cases h2 : i.expiresAt < n
          · simp [register_view, hf, h1, h2]
          · by_cases h3 : e ≠ i.email
            · simp [register_view, hf, h1, h2, h3]
            · match hv : v with
              | false => simp [register_view, hf, h1, h2, h3]
              | true =>
                exfalso
                exact hfail w (by simp [register_view, hf, h1, h2, h3])

/-- Witness for C9: a mismatching email is rejected and the invitation is
untouched. -/
theorem invitation_email_mismatch_and_untouched_on_failure_witness :
    (fun t => if t = "tok123" then some sampleInvitation else none) "tok123"
      = some sampleInvitation
    ∧ sampleInvitation.isUsed = false
    ∧ ¬ sampleInvitation.expiresAt < 100
    ∧ "b@x.com" ≠ sampleInvitation.email
    ∧ register_view (some "tok123")
        (fun t => if t = "tok123" then some sampleInvitation else none) "b@x.com" true 7 100
      = (.err 400 "Email does not match invitation", some sampleInvitation) :=
  ⟨by decide, rfl, by decide, by decide,
    (invitation_email_mismatch_and_untouched_on_failure "tok123"
      (fun t => if t = "tok123" then some sampleInvitation else none) sampleInvitation
      "b@x.com" true 7 100 (by decide) rfl (by decide) (by decide)).1⟩
